import Mathlib

/-!
Shallow embedding of the keyoku-demo repository (Python) in Lean 4, together
with theorems settling the frozen claims about its specification.

Modelling conventions:
* Pure Python functions become Lean functions over the same data.
* Calls into the external Keyoku / LLM SDKs are modelled as explicit oracle
  parameters (`Except String α` for calls that may raise `KeyokuError`,
  where the `String` is the error message rendered by `str(e)`).
* Python dict-based chat records are modelled by the inductive `Rec`:
  a Gradio message dict `\x7b"role": r, "content": c\x7d` becomes `Rec.msg r c`
  and a `(user, assistant)` tuple becomes `Rec.pair u a`.
* Python truthiness of optional strings (`if not x:` where `x` is `None` or a
  string) is modelled by `truthyOpt` (`none` and `some ""` are falsy).
* Side effects that the claims talk about (remote calls performed, cache
  slots written) are made observable by returning them explicitly.
-/

namespace KeyokuDemo

/-- Python truthiness for an optional string: `None` and `""` are falsy. -/
def truthyOpt : Option String → Bool
  | none => false
  | some s => s ≠ ""

/-! ## Config (src/keyoku_demo/config.py) -/

/-- Embedding of `Config.validate` (config.py lines 33-40): appends the named
error for each required API key that is empty (Python `if not key:`). -/
def Config.validate (keyoku_api_key openai_api_key : String) : List String :=
  (if keyoku_api_key = "" then ["KEYOKU_API_KEY is required"] else []) ++
  (if openai_api_key = "" then ["OPENAI_API_KEY is required"] else [])

/-! ## Chat-history reconciliation (src/keyoku_demo/app.py) -/

/-- A chat-history record as manipulated by the Gradio handlers: either a
role-tagged message dict or an already-paired `(user, assistant)` tuple. -/
inductive Rec where
  | msg (role : String) (content : String)
  | pair (u : String) (a : String)
deriving DecidableEq, Repr

/-- `history[i].get("content", "") if isinstance(history[i], dict) else history[i][0]`
(app.py line 265): content for a dict, first component for a tuple. -/
def recUser : Rec → String
  | .msg _ c => c
  | .pair u _ => u

/-- `history[i+1].get("content", "") if isinstance(history[i+1], dict) else history[i+1][1]`
(app.py line 266): content for a dict, second component for a tuple. -/
def recAsst : Rec → String
  | .msg _ c => c
  | .pair _ a => a

/-- Memory-tab reconciliation loop of `chat` (app.py lines 261-270): walks the
history two records at a time, emitting one `(user, assistant)` pair per pair
of consecutive records; a single trailing record hits the `break`. -/
def chatRecon : List Rec → List (String × String)
  | a :: b :: rest => (recUser a, recAsst b) :: chatRecon rest
  | _ => []

/-- `history[i + 1].get("content", "")` in the stateful loop (app.py line 420):
succeeds with the content of a dict; on a tuple the Python call raises
`AttributeError` (tuples have no `.get`). -/
def dictGetContent : Rec → Except String String
  | .msg _ c => .ok c
  | .pair _ _ => .error "AttributeError"

/-- Stateful-tab reconciliation loop of `stateful_chat` (app.py lines 414-426):
a dict with role `"user"` followed by another record is paired with the
following record (advancing by 2); any other dict is skipped; a non-dict
element is appended unchanged. The `Except` carries the `AttributeError`
raised when the record following a user dict is a tuple. -/
def statefulRecon : List Rec → Except String (List (String × String))
  | [] => .ok []
  | .msg role c :: rest =>
    if role = "user" then
      match rest with
      | r2 :: rest2 =>
        match dictGetContent r2 with
        | .error e => .error e
        | .ok a =>
          match statefulRecon rest2 with
          | .error e => .error e
          | .ok tl => .ok ((c, a) :: tl)
      | [] => .ok []
    else statefulRecon rest
  | .pair u a :: rest =>
    match statefulRecon rest with
    | .error e => .error e
    | .ok tl => .ok ((u, a) :: tl)

/-- Instrumented variant of `chatRecon` that records, for each emitted pair,
the input index it was emitted from (the loop counter `i` of app.py 262-270). -/
def chatReconIdx (i : Nat) : List Rec → List (Nat × (String × String))
  | a :: b :: rest => (i, (recUser a, recAsst b)) :: chatReconIdx (i + 2) rest
  | _ => []

/-- Instrumented variant of `statefulRecon` recording the loop counter `i` at
which each output pair was emitted. -/
def statefulReconIdx (i : Nat) : List Rec → Except String (List (Nat × (String × String)))
  | [] => .ok []
  | .msg role c :: rest =>
    if role = "user" then
      match rest with
      | r2 :: rest2 =>
        match dictGetContent r2 with
        | .error e => .error e
        | .ok a =>
          match statefulReconIdx (i + 2) rest2 with
          | .error e => .error e
          | .ok tl => .ok ((i, (c, a)) :: tl)
      | [] => .ok []
    else statefulReconIdx (i + 1) rest
  | .pair u a :: rest =>
    match statefulReconIdx (i + 1) rest with
    | .error e => .error e
    | .ok tl => .ok ((i, (u, a)) :: tl)

/-- A well-formed role-tagged history: each `(user, assistant)` text pair
becomes a user message record followed by an assistant message record. -/
def interleave (ps : List (String × String)) : List Rec :=
  ps.flatMap fun p => [Rec.msg "user" p.1, Rec.msg "assistant" p.2]

/-! ## Session-scoped display cache (src/keyoku_demo/app.py) -/

/-- The per-session display cache created by `get_empty_state_cache`
(app.py lines 15-22): four slots, each `None` (`none`) initially. -/
structure Cache where
  current_state : Option String
  state_history : Option String
  all_states : Option String
  schema_info : Option String
deriving DecidableEq, Repr

/-- `get_empty_state_cache()` (app.py lines 15-22). -/
def get_empty_state_cache : Cache := ⟨none, none, none, none⟩

/-- `get_current_state_display` (app.py lines 495-531). The whole `try` body —
building the merged state dict and rendering it with `json.dumps` — is
abstracted as the oracle `fetch`: `.ok s` is the rendered result, `.error e`
is any exception raised inside the `try` (the body writes the cache only as
its final step, so a raising run never mutates the cache). On success the
`current_state` slot is overwritten and the fresh value returned; on failure
the cached value is returned when truthy, else the literal error string. -/
def get_current_state_display (fetch : Except String String) (cache : Cache) :
    String × Cache :=
  match fetch with
  | .ok s => (s, { cache with current_state := some s })
  | .error e =>
    if truthyOpt cache.current_state then
      (cache.current_state.getD "", cache)
    else
      ("Error: " ++ e, cache)

/-- Outcome of the `try` body of `get_state_history_display`
(app.py lines 534-573): no schema yet, an exception (`raiseExc`), a
`KeyokuError` surfaced as a `[\x7b"error": e\x7d]` value from
`get_state_history` (`errVal`), an empty history, or a successfully rendered
table (`rendered` abstracts the line-formatting loop). -/
inductive HistOutcome where
  | noSchema
  | raiseExc (e : String)
  | errVal (e : String)
  | emptyHist
  | rendered (s : String)
deriving DecidableEq, Repr

/-- `get_state_history_display` (app.py lines 534-573): the no-schema, empty
and success branches write the `state_history` slot and return the written
string; the error-value branch and the `except` branch return the truthy
cached value when present, else a literal error string, without writing. -/
def get_state_history_display (out : HistOutcome) (cache : Cache) :
    String × Cache :=
  match out with
  | .noSchema =>
    ("No schema initialized yet", { cache with state_history := some "No schema initialized yet" })
  | .emptyHist =>
    ("No state transitions yet", { cache with state_history := some "No state transitions yet" })
  | .rendered s => (s, { cache with state_history := some s })
  | .errVal e =>
    if truthyOpt cache.state_history then
      (cache.state_history.getD "", cache)
    else
      ("Error: " ++ e, cache)
  | .raiseExc e =>
    if truthyOpt cache.state_history then
      (cache.state_history.getD "", cache)
    else
      ("Error: " ++ e, cache)

/-- Outcome of the `try` body of `get_all_session_states_display`
(app.py lines 576-616): schema missing, exception, single-`error`-dict result
from `get_all_session_states`, empty state list, or rendered JSON text. -/
inductive StatesOutcome where
  | noSchema
  | raiseExc (e : String)
  | errVal (e : String)
  | emptyStates
  | rendered (s : String)
deriving DecidableEq, Repr

/-- `get_all_session_states_display` (app.py lines 576-616): same discipline
as the history panel, with its own literals, on the `all_states` slot. -/
def get_all_session_states_display (out : StatesOutcome) (cache : Cache) :
    String × Cache :=
  match out with
  | .noSchema =>
    ("Schema not initialized - start chatting to initialize",
      { cache with all_states := some "Schema not initialized - start chatting to initialize" })
  | .emptyStates =>
    ("No states in session yet", { cache with all_states := some "No states in session yet" })
  | .rendered s => (s, { cache with all_states := some s })
  | .errVal e =>
    if truthyOpt cache.all_states then
      (cache.all_states.getD "", cache)
    else
      ("Error: " ++ e, cache)
  | .raiseExc e =>
    if truthyOpt cache.all_states then
      (cache.all_states.getD "", cache)
    else
      ("Error: " ++ e, cache)

/-- `get_schema_info_display` (app.py lines 619-653): the `try` body renders
the static agent schema view (abstracted as the oracle); success writes the
`schema_info` slot, an exception falls back to the truthy cached value or a
literal error string. -/
def get_schema_info_display (fetch : Except String String) (cache : Cache) :
    String × Cache :=
  match fetch with
  | .ok s => (s, { cache with schema_info := some s })
  | .error e =>
    if truthyOpt cache.schema_info then
      (cache.schema_info.getD "", cache)
    else
      ("Error: " ++ e, cache)

/-- Result of `update_state_panels` (app.py lines 656-664): the four panel
texts plus the threaded cache. -/
structure PanelsResult where
  current_state : String
  state_history : String
  all_states : String
  schema_info : String
  cache : Cache
deriving DecidableEq, Repr

/-- `update_state_panels` (app.py lines 656-664): defaults a `None` cache to
the empty cache, then runs the four panel fetches sequentially, threading the
cache through. -/
def update_state_panels (f1 : Except String String) (f2 : HistOutcome)
    (f3 : StatesOutcome) (f4 : Except String String) (cache? : Option Cache) :
    PanelsResult :=
  let cache := cache?.getD get_empty_state_cache
  let r1 := get_current_state_display f1 cache
  let r2 := get_state_history_display f2 r1.2
  let r3 := get_all_session_states_display f3 r2.2
  let r4 := get_schema_info_display f4 r3.2
  ⟨r1.1, r2.1, r3.1, r4.1, r4.2⟩

/-- `force_refresh_state_panels` (app.py lines 667-671): resets the cache to
empty, then runs the normal update sequence. -/
def force_refresh_state_panels (f1 : Except String String) (f2 : HistOutcome)
    (f3 : StatesOutcome) (f4 : Except String String) (_cache : Cache) :
    PanelsResult :=
  update_state_panels f1 f2 f3 f4 (some get_empty_state_cache)

/-! ## Demo agent configurations (src/keyoku_demo/demo_schemas.py) -/

/-- A schema definition, modelled by its property list: field name paired
with its JSON type string (demo_schemas.py `"properties"`). -/
def SchemaDef := List (String × String)
deriving DecidableEq, Repr

/-- Field-level transition rules: per status field, the allowed next values
for each current value (demo_schemas.py transition-rule tables). -/
def TransRules := List (String × List (String × List String))
deriving DecidableEq, Repr

/-- `ORDER_PROCESSING_SCHEMA` (demo_schemas.py lines 4-40), properties only. -/
def ORDER_PROCESSING_SCHEMA : SchemaDef :=
  [("status", "string"), ("items", "array"), ("total_amount", "number"),
   ("customer_name", "string"), ("shipping_address", "string"),
   ("payment_method", "string"), ("notes", "string")]

/-- `ORDER_TRANSITION_RULES` (demo_schemas.py lines 42-51). -/
def ORDER_TRANSITION_RULES : TransRules :=
  [("status",
    [("pending", ["confirmed", "cancelled"]),
     ("confirmed", ["processing", "cancelled"]),
     ("processing", ["shipped", "cancelled"]),
     ("shipped", ["delivered"]),
     ("delivered", []),
     ("cancelled", [])])]

/-- `SUPPORT_TICKET_SCHEMA` (demo_schemas.py lines 54-87), properties only. -/
def SUPPORT_TICKET_SCHEMA : SchemaDef :=
  [("ticket_status", "string"), ("priority", "string"), ("category", "string"),
   ("issue_summary", "string"), ("resolution_notes", "string"),
   ("customer_satisfaction", "integer")]

/-- `SUPPORT_TRANSITION_RULES` (demo_schemas.py lines 89-97). -/
def SUPPORT_TRANSITION_RULES : TransRules :=
  [("ticket_status",
    [("open", ["in_progress", "closed"]),
     ("in_progress", ["waiting_customer", "resolved", "closed"]),
     ("waiting_customer", ["in_progress", "resolved", "closed"]),
     ("resolved", ["closed", "in_progress"]),
     ("closed", [])])]

/-- `SCHEDULING_SCHEMA` (demo_schemas.py lines 100-137), properties only. -/
def SCHEDULING_SCHEMA : SchemaDef :=
  [("appointment_status", "string"), ("appointment_type", "string"),
   ("proposed_date", "string"), ("confirmed_date", "string"),
   ("duration_minutes", "integer"), ("attendees", "array"),
   ("meeting_link", "string")]

/-- `SCHEDULING_TRANSITION_RULES` (demo_schemas.py lines 139-147). -/
def SCHEDULING_TRANSITION_RULES : TransRules :=
  [("appointment_status",
    [("proposed", ["confirmed", "cancelled"]),
     ("confirmed", ["rescheduled", "cancelled", "completed"]),
     ("rescheduled", ["confirmed", "cancelled"]),
     ("cancelled", []),
     ("completed", [])])]

/-- One entry of `DEMO_AGENTS` (demo_schemas.py lines 150-200). -/
structure AgentConfig where
  name : String
  description : String
  schema_name : String
  schema_definition : SchemaDef
  transition_rules : TransRules
  system_prompt : String

/-- The `"sales-agent"` entry of `DEMO_AGENTS` (demo_schemas.py 151-167). -/
def salesAgentConfig : AgentConfig :=
  { name := "Sales Agent",
    description := "Handles order processing and sales inquiries",
    schema_name := "OrderProcessing",
    schema_definition := ORDER_PROCESSING_SCHEMA,
    transition_rules := ORDER_TRANSITION_RULES,
    system_prompt := "You are a friendly and helpful sales agent. Your job is to:\n- Help customers place orders\n- Recommend products based on their needs\n- Process order confirmations\n- Provide order status updates\n\nAlways be professional and helpful. When a customer wants to order something,\nacknowledge their request and move the order through the appropriate states.\nWhen you discuss order details (items, prices, addresses), the system will\nautomatically track these in the state." }

/-- The `"support-agent"` entry of `DEMO_AGENTS` (demo_schemas.py 168-183). -/
def supportAgentConfig : AgentConfig :=
  { name := "Support Agent",
    description := "Handles customer support tickets and issues",
    schema_name := "SupportTicket",
    schema_definition := SUPPORT_TICKET_SCHEMA,
    transition_rules := SUPPORT_TRANSITION_RULES,
    system_prompt := "You are a knowledgeable customer support agent. Your job is to:\n- Help customers resolve issues\n- Categorize and prioritize support requests\n- Provide clear solutions and workarounds\n- Escalate when necessary\n\nBe empathetic and solution-focused. When handling issues, identify the category,\nassess priority, and work toward resolution. The system tracks ticket status\nautomatically based on your conversation." }

/-- The `"scheduler-agent"` entry of `DEMO_AGENTS` (demo_schemas.py 184-199). -/
def schedulerAgentConfig : AgentConfig :=
  { name := "Scheduler Agent",
    description := "Handles appointment scheduling and calendar management",
    schema_name := "AppointmentScheduling",
    schema_definition := SCHEDULING_SCHEMA,
    transition_rules := SCHEDULING_TRANSITION_RULES,
    system_prompt := "You are an efficient scheduling assistant. Your job is to:\n- Help schedule appointments and meetings\n- Propose available time slots\n- Confirm or reschedule appointments\n- Send meeting reminders and details\n\nBe organized and clear about scheduling details. When discussing appointments,\nmention specific dates, times, and participants. The system automatically tracks\nappointment status based on your conversation." }

/-- `DEMO_AGENTS` (demo_schemas.py lines 150-200): the fixed closed set of
agent profiles, keyed by agent id. -/
def DEMO_AGENTS : List (String × AgentConfig) :=
  [("sales-agent", salesAgentConfig),
   ("support-agent", supportAgentConfig),
   ("scheduler-agent", schedulerAgentConfig)]

/-- `DEMO_AGENTS.get(agent_id)`: first entry with a matching key. -/
def lookupAgent (agent_id : String) : Option AgentConfig :=
  (DEMO_AGENTS.find? fun p => p.1 == agent_id).map Prod.snd

/-! ## Stateful-agent client (src/keyoku_demo/stateful_chatbot.py) -/

/-- A remote state schema as returned by `keyoku.state_schemas.list` /
`create`: the fields `_ensure_schema` reads (`schema.id`, `schema.name`). -/
structure Schema where
  id : String
  name : String
deriving DecidableEq, Repr

/-- The arguments `_ensure_schema` passes to `keyoku.state_schemas.create`
(stateful_chatbot.py lines 70-77). -/
structure CreateSchemaArgs where
  name : String
  schema_definition : SchemaDef
  description : String
  sharing_mode : String
  transition_rules : Option TransRules
  transition_mode : String

/-- A remote SDK call performed by the schema-ensure protocol, recorded so
that theorems can speak about which remote calls happened. -/
inductive RemoteCall where
  | schemasList
  | schemasCreate (args : CreateSchemaArgs)

/-- The create-call arguments `_ensure_schema` builds for an agent config
(stateful_chatbot.py lines 70-77): the config's schema name, definition and
transition rules, a derived description, the instance's sharing mode, and
transition enforcement mode `"warn"`. -/
def mkCreateArgs (cfg : AgentConfig) (sharing_mode : String) : CreateSchemaArgs :=
  { name := cfg.schema_name,
    schema_definition := cfg.schema_definition,
    description := "State schema for " ++ cfg.name,
    sharing_mode := sharing_mode,
    transition_rules := some cfg.transition_rules,
    transition_mode := "warn" }

/-- The mutable fields of `StatefulChatbot` that the modelled methods touch. -/
structure BotState where
  session_id : String
  agent_id : String
  sharing_mode : String
  schema_id : Option String
deriving DecidableEq, Repr

/-- `StatefulChatbot._ensure_schema` (stateful_chatbot.py lines 52-81).
`api_list` is the outcome of `keyoku.state_schemas.list(limit=100)` and
`api_create` the outcome of `keyoku.state_schemas.create(...)`; `.error`
is a raised `KeyokuError`, which the method catches (printing only), leaving
`schema_id` unchanged. An unknown agent id only prints a warning and returns
before any remote call. Returns the updated state and the remote calls made. -/
def ensure_schema (api_list : Except String (List Schema))
    (api_create : CreateSchemaArgs → Except String Schema)
    (self : BotState) : BotState × List RemoteCall :=
  match lookupAgent self.agent_id with
  | none => (self, [])
  | some cfg =>
    match api_list with
    | .error _ => (self, [.schemasList])
    | .ok schemas =>
      match schemas.find? (fun s => s.name == cfg.schema_name) with
      | some s => ({ self with schema_id := some s.id }, [.schemasList])
      | none =>
        let args := mkCreateArgs cfg self.sharing_mode
        match api_create args with
        | .ok s => ({ self with schema_id := some s.id }, [.schemasList, .schemasCreate args])
        | .error _ => (self, [.schemasList, .schemasCreate args])

/-- `StatefulChatbot.__init__` (stateful_chatbot.py lines 23-50): records the
session id, agent id and sharing mode, starts with `schema_id = None`, and
runs `_ensure_schema`. Construction never raises for an unknown agent id. -/
def init_stateful (api_list : Except String (List Schema))
    (api_create : CreateSchemaArgs → Except String Schema)
    (session_id agent_id sharing_mode : String) : BotState × List RemoteCall :=
  ensure_schema api_list api_create
    { session_id := session_id, agent_id := agent_id,
      sharing_mode := sharing_mode, schema_id := none }

/-- `StatefulChatbot.switch_agent` (stateful_chatbot.py lines 83-94): raises
`ValueError` (`.error`) for an id outside `DEMO_AGENTS` — before any remote
call (empty call list) and before mutating the agent selection (no successor
state) — otherwise updates the agent id and reruns `_ensure_schema`. -/
def switch_agent (api_list : Except String (List Schema))
    (api_create : CreateSchemaArgs → Except String Schema)
    (self : BotState) (new_agent_id : String) :
    List RemoteCall × Except String BotState :=
  match lookupAgent new_agent_id with
  | none => ([], .error ("Unknown agent: " ++ new_agent_id))
  | some _ =>
    let r := ensure_schema api_list api_create { self with agent_id := new_agent_id }
    (r.2, .ok r.1)

/-- `StatefulChatbot._get_system_prompt` (stateful_chatbot.py lines 96-99). -/
def get_system_prompt (agent_id : String) : String :=
  match lookupAgent agent_id with
  | some cfg => cfg.system_prompt
  | none => "You are a helpful assistant."

/-- A LangChain chat message (`SystemMessage` / `HumanMessage` / `AIMessage`). -/
inductive Msg where
  | system (s : String)
  | human (s : String)
  | ai (s : String)
deriving DecidableEq, Repr

/-- The message list both chat methods build: two system messages, the
`(user, assistant)` history pairs, then the current user message
(chatbot.py lines 71-82, stateful_chatbot.py lines 138-149). -/
def build_messages (sys ctx : String) (history : List (String × String))
    (message : String) : List Msg :=
  [Msg.system sys, Msg.system ctx]
    ++ (history.flatMap fun p => [Msg.human p.1, Msg.ai p.2])
    ++ [Msg.human message]

/-- `StatefulChatbot.chat` (stateful_chatbot.py lines 117-156): with no truthy
`schema_id` it returns the literal error string without touching the LLM;
otherwise it builds the messages and invokes the LLM (`llm` oracle; `.error`
is any exception, caught and rendered inline). The returned `Bool` records
whether the LLM was invoked. `state_context` abstracts `_get_state_context()`
(a remote read rendered to text). -/
def StatefulChatbot.chat (llm : List Msg → Except String String)
    (self : BotState) (state_context : String) (message : String)
    (history : List (String × String)) : String × Bool :=
  if truthyOpt self.schema_id then
    match llm (build_messages (get_system_prompt self.agent_id) state_context history message) with
    | .ok t => (t, true)
    | .error e => ("Error generating response: " ++ e, true)
  else
    ("Error: No state schema configured for this agent.", false)

/-- Sequential archiving loop of `reset_session` (stateful_chatbot.py lines
303-305): archive each state id in order; a raised `KeyokuError` stops the
loop. Returns the ids archived so far and the error, if any. -/
def archiveSeq (arch : String → Except String Unit) :
    List String → List String × Option String
  | [] => ([], none)
  | sid :: rest =>
    match arch sid with
    | .error e => ([], some e)
    | .ok _ =>
      let r := archiveSeq arch rest
      (sid :: r.1, r.2)

/-- Result of `reset_session`: the session id afterwards, the state ids that
were actually archived, and the returned message. -/
structure ResetResult where
  session_id : String
  archived : List String
  message : String
deriving DecidableEq, Repr

/-- `StatefulChatbot.reset_session` (stateful_chatbot.py lines 299-311):
lists the session states (`get_by_session`, modelled as the list of state
ids), archives them sequentially, then replaces the session id with a fresh
one (`fresh_id` models the new `uuid` token). The single `try/except` wraps
listing, the whole archive loop and the id replacement: any `KeyokuError`
aborts the rest and returns an error message with the session id unchanged. -/
def reset_session (get_by_session : Except String (List String))
    (arch : String → Except String Unit)
    (session_id fresh_id : String) : ResetResult :=
  match get_by_session with
  | .error e => ⟨session_id, [], "Error resetting session: " ++ e⟩
  | .ok states =>
    let r := archiveSeq arch states
    match r.2 with
    | some e => ⟨session_id, r.1, "Error resetting session: " ++ e⟩
    | none => ⟨fresh_id, r.1, "New session started: " ++ fresh_id⟩

/-! ## Memory chatbot (src/keyoku_demo/chatbot.py, prompts.py) -/

/-- `SYSTEM_PROMPT` (prompts.py lines 3-14). -/
def SYSTEM_PROMPT : String :=
  "You are a helpful AI assistant with persistent memory powered by Keyoku.\n\nYou have access to memories from previous conversations that may be relevant to the current discussion. Use these memories to:\n1. Remember user preferences and personalize responses\n2. Reference past conversations when relevant\n3. Build on previous discussions rather than starting fresh\n\nWhen you learn something new about the user (their name, preferences, facts about them, their work), acknowledge it naturally in your response.\n\nBe conversational, helpful, and demonstrate that you remember things across sessions. If a user asks what you remember about them, summarize the relevant memories you have.\n\nImportant: Always be accurate about what you remember. Don\x27t make up information that isn\x27t in your memory context."

/-- Outcome of `job.wait(timeout=10.0)` (chatbot.py line 100): completed,
`TimeoutError`, or a `KeyokuError`. -/
inductive WaitOutcome where
  | completed
  | timeout
  | keyokuErr (e : String)
deriving DecidableEq, Repr

/-- Observable outcome of the memory-storage step of `KeyokuChatbot.chat`
(chatbot.py lines 92-106): stored, or a caught-and-logged failure. -/
inductive StoreResult where
  | stored
  | storeFailed (e : String)
  | timedOut
deriving DecidableEq, Repr

/-- The `try remember/wait` block of `KeyokuChatbot.chat` (chatbot.py lines
92-106): `remember` may raise `KeyokuError` (caught, logged); `wait` may
raise `KeyokuError` or `TimeoutError` (each caught, logged). Never raises
past its own boundary for these expected failure kinds. -/
def store_conversation (remember : String → Except String String)
    (wait : String → WaitOutcome) (conversation : String) : StoreResult :=
  match remember conversation with
  | .error e => .storeFailed e
  | .ok job =>
    match wait job with
    | .completed => .stored
    | .keyokuErr e => .storeFailed e
    | .timeout => .timedOut

/-- `KeyokuChatbot.chat` (chatbot.py lines 57-108). `memory_context`
abstracts `_retrieve_relevant_memories` (a remote read rendered to text);
`llm` is the chat-completion oracle; `remember`/`wait` model the memory
storage step, attempted only after a reply was generated. Returns the reply
text and the storage outcome (`none` when generation failed and storage was
never attempted). -/
def KeyokuChatbot.chat (memory_context : String)
    (llm : List Msg → Except String String)
    (remember : String → Except String String) (wait : String → WaitOutcome)
    (message : String) (history : List (String × String)) :
    String × Option StoreResult :=
  match llm (build_messages SYSTEM_PROMPT memory_context history message) with
  | .error e => ("Error generating response: " ++ e, none)
  | .ok t =>
    let sr := store_conversation remember wait
      ("User: " ++ message ++ "\nAssistant: " ++ t)
    (t, some sr)

/-! ## Helper lemmas -/

theorem chatRecon_interleave (ps : List (String × String)) :
    chatRecon (interleave ps) = ps := by
  induction ps with
  | nil => simp [interleave, chatRecon]
  | cons p ps ih => simp [interleave, chatRecon, recUser, recAsst] at ih ⊢; exact ih

theorem statefulRecon_interleave (ps : List (String × String)) :
    statefulRecon (interleave ps) = .ok ps := by
  induction ps with
  | nil => simp [interleave, statefulRecon]
  | cons p ps ih =>
    simp [interleave] at ih ⊢
    simp [statefulRecon, dictGetContent, ih]

theorem chatRecon_interleave_trailing (ps : List (String × String)) (u : String) :
    chatRecon (interleave ps ++ [Rec.msg "user" u]) = ps := by
  induction ps with
  | nil => simp [interleave, chatRecon]
  | cons p ps ih => simp [interleave, chatRecon, recUser, recAsst] at ih ⊢; exact ih

theorem statefulRecon_interleave_trailing (ps : List (String × String)) (u : String) :
    statefulRecon (interleave ps ++ [Rec.msg "user" u]) = .ok ps := by
  induction ps with
  | nil => simp [interleave, statefulRecon]
  | cons p ps ih =>
    simp [interleave] at ih ⊢
    simp [statefulRecon, dictGetContent, ih]

theorem statefulRecon_pairs (l : List (String × String)) :
    statefulRecon (l.map fun p => Rec.pair p.1 p.2) = .ok l := by
  induction l with
  | nil => simp [statefulRecon]
  | cons p l ih => simp [statefulRecon, ih]

theorem chatReconIdx_map_snd : ∀ (h : List Rec) (i : Nat),
    (chatReconIdx i h).map Prod.snd = chatRecon h
  | [], _ => by simp [chatReconIdx, chatRecon]
  | [_], _ => by simp [chatReconIdx, chatRecon]
  | a :: b :: rest, i => by
    simp [chatReconIdx, chatRecon, chatReconIdx_map_snd rest (i + 2)]

theorem chatReconIdx_fst_ge : ∀ (h : List Rec) (i : Nat),
    ∀ x ∈ (chatReconIdx i h).map Prod.fst, i ≤ x
  | [], _ => by simp [chatReconIdx]
  | [_], _ => by simp [chatReconIdx]
  | a :: b :: rest, i => by
    intro x hx
    simp [chatReconIdx] at hx
    rcases hx with hx | hx
    · omega
    · have := chatReconIdx_fst_ge rest (i + 2) x (by simpa using hx)
      omega

theorem chatReconIdx_chain : ∀ (h : List Rec) (i : Nat),
    List.Chain' (· < ·) ((chatReconIdx i h).map Prod.fst)
  | [], _ => by simp [chatReconIdx]
  | [_], _ => by simp [chatReconIdx]
  | a :: b :: rest, i => by
    have hchain := chatReconIdx_chain rest (i + 2)
    have hge := chatReconIdx_fst_ge rest (i + 2)
    simp only [chatReconIdx, List.map_cons]
    refine List.chain'_cons'.mpr ⟨?_, hchain⟩
    intro y hy
    have : y ∈ (chatReconIdx (i + 2) rest).map Prod.fst :=
      List.mem_of_mem_head? hy
    have := hge y this
    omega

theorem chain_cons_of_ge (j : Nat) (tl : List (Nat × (String × String)))
    (hchain : List.Chain' (· < ·) (tl.map Prod.fst))
    (hge : ∀ x ∈ tl.map Prod.fst, j + 1 ≤ x) :
    List.Chain' (· < ·) (((j, p) :: tl).map Prod.fst) := by
  simp only [List.map_cons]
  refine List.chain'_cons'.mpr ⟨?_, hchain⟩
  intro y hy
  have : y ∈ tl.map Prod.fst := List.mem_of_mem_head? hy
  have := hge y this
  omega

theorem statefulReconIdx_spec : ∀ (h : List Rec) (i : Nat),
    (statefulReconIdx i h).map (List.map Prod.snd) = statefulRecon h ∧
    (∀ out, statefulReconIdx i h = .ok out →
      List.Chain' (· < ·) (out.map Prod.fst) ∧ ∀ x ∈ out.map Prod.fst, i ≤ x)
  | [], i => by
    constructor
    · simp [statefulReconIdx, statefulRecon, Except.map]
    · intro out hout
      simp [statefulReconIdx] at hout
      subst hout
      simp
  | .msg role c :: rest, i => by
    by_cases hrole : role = "user"
    · subst hrole
      cases rest with
      | nil =>
        constructor
        · simp [statefulReconIdx, statefulRecon, Except.map]
        · intro out hout
          simp [statefulReconIdx] at hout
          subst hout
          simp
      | cons r2 rest2 =>
        have ih := statefulReconIdx_spec rest2 (i + 2)
        cases hget : dictGetContent r2 with
        | error e =>
          constructor
          · simp [statefulReconIdx, statefulRecon, hget, Except.map]
          · intro out hout
            simp [statefulReconIdx, hget] at hout
        | ok a =>
          cases hrec : statefulReconIdx (i + 2) rest2 with
          | error e =>
            have h1 : statefulRecon rest2 = .error e := by
              have := ih.1
              rw [hrec] at this
              simpa [Except.map] using this.symm
            constructor
            · simp [statefulReconIdx, statefulRecon, hget, hrec, h1, Except.map]
            · intro out hout
              simp [statefulReconIdx, hget, hrec] at hout
          | ok tl =>
            have h1 : statefulRecon rest2 = .ok (tl.map Prod.snd) := by
              have := ih.1
              rw [hrec] at this
              simpa [Except.map] using this.symm
            have h2 := ih.2 tl hrec
            constructor
            · simp [statefulReconIdx, statefulRecon, hget, hrec, h1, Except.map]
            · intro out hout
              simp [statefulReconIdx, hget, hrec] at hout
              subst hout
              refine ⟨chain_cons_of_ge i tl h2.1 (fun x hx => by have := h2.2 x hx; omega), ?_⟩
              intro x hx
              simp at hx
              rcases hx with hx | hx
              · omega
              · have := h2.2 x (by simpa using hx)
                omega
    · have ih := statefulReconIdx_spec rest (i + 1)
      constructor
      · have heq : statefulReconIdx i (Rec.msg role c :: rest) = statefulReconIdx (i + 1) rest := by
          cases rest <;> simp [statefulReconIdx, hrole]
        have heq2 : statefulRecon (Rec.msg role c :: rest) = statefulRecon rest := by
          cases rest <;> simp [statefulRecon, hrole]
        rw [heq, heq2, ih.1]
      · intro out hout
        have heq : statefulReconIdx i (Rec.msg role c :: rest) = statefulReconIdx (i + 1) rest := by
          cases rest <;> simp [statefulReconIdx, hrole]
        rw [heq] at hout
        have := ih.2 out hout
        exact ⟨this.1, fun x hx => by have := this.2 x hx; omega⟩
  | .pair u a :: rest, i => by
    have ih := statefulReconIdx_spec rest (i + 1)
    cases hrec : statefulReconIdx (i + 1) rest with
    | error e =>
      have h1 : statefulRecon rest = .error e := by
        have := ih.1
        rw [hrec] at this
        simpa [Except.map] using this.symm
      constructor
      · simp [statefulReconIdx, statefulRecon, hrec, h1, Except.map]
      · intro out hout
        simp [statefulReconIdx, hrec] at hout
    | ok tl =>
      have h1 : statefulRecon rest = .ok (tl.map Prod.snd) := by
        have := ih.1
        rw [hrec] at this
        simpa [Except.map] using this.symm
      have h2 := ih.2 tl hrec
      constructor
      · simp [statefulReconIdx, statefulRecon, hrec, h1, Except.map]
      · intro out hout
        simp [statefulReconIdx, hrec] at hout
        subst hout
        refine ⟨chain_cons_of_ge i tl h2.1 (fun x hx => by have := h2.2 x hx; omega), ?_⟩
        intro x hx
        simp at hx
        rcases hx with hx | hx
        · omega
        · have := h2.2 x (by simpa using hx)
          omega

theorem current_display_error_cache (e : String) (cache : Cache) :
    (get_current_state_display (.error e) cache).2 = cache := by
  cases h : truthyOpt cache.current_state <;>
    simp [get_current_state_display, h]

theorem current_display_error_val (e c : String) (cache : Cache)
    (hc : cache.current_state = some c) (hne : c ≠ "") :
    (get_current_state_display (.error e) cache).1 = c := by
  simp [get_current_state_display, truthyOpt, hc, hne]

theorem hist_display_raise_cache (e : String) (cache : Cache) :
    (get_state_history_display (.raiseExc e) cache).2 = cache := by
  cases ht : truthyOpt cache.state_history <;> simp [get_state_history_display, ht]

theorem hist_display_errval_cache (e : String) (cache : Cache) :
    (get_state_history_display (.errVal e) cache).2 = cache := by
  cases ht : truthyOpt cache.state_history <;> simp [get_state_history_display, ht]

theorem hist_display_raise_val (e c : String) (cache : Cache)
    (hc : cache.state_history = some c) (hne : c ≠ "") :
    (get_state_history_display (.raiseExc e) cache).1 = c := by
  simp [get_state_history_display, truthyOpt, hc, hne]

theorem hist_display_errval_val (e c : String) (cache : Cache)
    (hc : cache.state_history = some c) (hne : c ≠ "") :
    (get_state_history_display (.errVal e) cache).1 = c := by
  simp [get_state_history_display, truthyOpt, hc, hne]

theorem states_display_raise_cache (e : String) (cache : Cache) :
    (get_all_session_states_display (.raiseExc e) cache).2 = cache := by
  cases ht : truthyOpt cache.all_states <;> simp [get_all_session_states_display, ht]

theorem states_display_errval_cache (e : String) (cache : Cache) :
    (get_all_session_states_display (.errVal e) cache).2 = cache := by
  cases ht : truthyOpt cache.all_states <;> simp [get_all_session_states_display, ht]

theorem states_display_raise_val (e c : String) (cache : Cache)
    (hc : cache.all_states = some c) (hne : c ≠ "") :
    (get_all_session_states_display (.raiseExc e) cache).1 = c := by
  simp [get_all_session_states_display, truthyOpt, hc, hne]

theorem states_display_errval_val (e c : String) (cache : Cache)
    (hc : cache.all_states = some c) (hne : c ≠ "") :
    (get_all_session_states_display (.errVal e) cache).1 = c := by
  simp [get_all_session_states_display, truthyOpt, hc, hne]

theorem schema_display_error_cache (e : String) (cache : Cache) :
    (get_schema_info_display (.error e) cache).2 = cache := by
  cases ht : truthyOpt cache.schema_info <;> simp [get_schema_info_display, ht]

theorem schema_display_error_val (e c : String) (cache : Cache)
    (hc : cache.schema_info = some c) (hne : c ≠ "") :
    (get_schema_info_display (.error e) cache).1 = c := by
  simp [get_schema_info_display, truthyOpt, hc, hne]

theorem current_display_frame (f : Except String String) (cache : Cache) :
    (get_current_state_display f cache).2.state_history = cache.state_history ∧
    (get_current_state_display f cache).2.all_states = cache.all_states ∧
    (get_current_state_display f cache).2.schema_info = cache.schema_info := by
  cases f <;> cases ht : truthyOpt cache.current_state <;>
    simp [get_current_state_display, ht]

theorem hist_display_frame (out : HistOutcome) (cache : Cache) :
    (get_state_history_display out cache).2.current_state = cache.current_state ∧
    (get_state_history_display out cache).2.all_states = cache.all_states ∧
    (get_state_history_display out cache).2.schema_info = cache.schema_info := by
  cases out <;> cases ht : truthyOpt cache.state_history <;>
    simp [get_state_history_display, ht]

theorem states_display_frame (out : StatesOutcome) (cache : Cache) :
    (get_all_session_states_display out cache).2.current_state = cache.current_state ∧
    (get_all_session_states_display out cache).2.state_history = cache.state_history ∧
    (get_all_session_states_display out cache).2.schema_info = cache.schema_info := by
  cases out <;> cases ht : truthyOpt cache.all_states <;>
    simp [get_all_session_states_display, ht]

theorem schema_display_frame (f : Except String String) (cache : Cache) :
    (get_schema_info_display f cache).2.current_state = cache.current_state ∧
    (get_schema_info_display f cache).2.state_history = cache.state_history ∧
    (get_schema_info_display f cache).2.all_states = cache.all_states := by
  cases f <;> cases ht : truthyOpt cache.schema_info <;>
    simp [get_schema_info_display, ht]

theorem update_current_slot (s : String) (f2 : HistOutcome) (f3 : StatesOutcome)
    (f4 : Except String String) (cache : Cache) :
    (update_state_panels (.ok s) f2 f3 f4 (some cache)).current_state = s ∧
    (update_state_panels (.ok s) f2 f3 f4 (some cache)).cache.current_state = some s := by
  have h1 : (get_current_state_display (.ok s) cache).2.current_state = some s := by
    simp [get_current_state_display]
  have h1v : (get_current_state_display (.ok s) cache).1 = s := by
    simp [get_current_state_display]
  constructor
  · simpa [update_state_panels] using h1v
  · simp only [update_state_panels, Option.getD_some]
    rw [(schema_display_frame f4 _).1, (states_display_frame f3 _).1,
      (hist_display_frame f2 _).1, h1]

theorem update_history_slot (f1 : Except String String) (s : String)
    (f3 : StatesOutcome) (f4 : Except String String) (cache : Cache) :
    (update_state_panels f1 (.rendered s) f3 f4 (some cache)).state_history = s ∧
    (update_state_panels f1 (.rendered s) f3 f4 (some cache)).cache.state_history = some s := by
  have h2 : ∀ c : Cache, (get_state_history_display (.rendered s) c).2.state_history = some s := by
    intro c; simp [get_state_history_display]
  have h2v : ∀ c : Cache, (get_state_history_display (.rendered s) c).1 = s := by
    intro c; simp [get_state_history_display]
  constructor
  · simpa [update_state_panels] using h2v _
  · simp only [update_state_panels, Option.getD_some]
    rw [(schema_display_frame f4 _).2.1, (states_display_frame f3 _).2.1, h2]

theorem update_states_slot (f1 : Except String String) (f2 : HistOutcome)
    (s : String) (f4 : Except String String) (cache : Cache) :
    (update_state_panels f1 f2 (.rendered s) f4 (some cache)).all_states = s ∧
    (update_state_panels f1 f2 (.rendered s) f4 (some cache)).cache.all_states = some s := by
  have h3 : ∀ c : Cache, (get_all_session_states_display (.rendered s) c).2.all_states = some s := by
    intro c; simp [get_all_session_states_display]
  have h3v : ∀ c : Cache, (get_all_session_states_display (.rendered s) c).1 = s := by
    intro c; simp [get_all_session_states_display]
  constructor
  · simpa [update_state_panels] using h3v _
  · simp only [update_state_panels, Option.getD_some]
    rw [(schema_display_frame f4 _).2.2, h3]

theorem update_schema_slot (f1 : Except String String) (f2 : HistOutcome)
    (f3 : StatesOutcome) (s : String) (cache : Cache) :
    (update_state_panels f1 f2 f3 (.ok s) (some cache)).schema_info = s ∧
    (update_state_panels f1 f2 f3 (.ok s) (some cache)).cache.schema_info = some s := by
  have h4 : ∀ c : Cache, (get_schema_info_display (.ok s) c).2.schema_info = some s := by
    intro c; simp [get_schema_info_display]
  have h4v : ∀ c : Cache, (get_schema_info_display (.ok s) c).1 = s := by
    intro c; simp [get_schema_info_display]
  constructor
  · simpa [update_state_panels] using h4v _
  · simp only [update_state_panels, Option.getD_some]
    rw [h4]

theorem ensure_schema_unknown (al : Except String (List Schema))
    (ac : CreateSchemaArgs → Except String Schema) (self : BotState)
    (h : lookupAgent self.agent_id = none) :
    ensure_schema al ac self = (self, []) := by
  simp [ensure_schema, h]

theorem ensure_schema_list_error (e : String)
    (ac : CreateSchemaArgs → Except String Schema) (self : BotState) (cfg : AgentConfig)
    (h : lookupAgent self.agent_id = some cfg) :
    ensure_schema (.error e) ac self = (self, [.schemasList]) := by
  simp [ensure_schema, h]

theorem ensure_schema_found (l : List Schema)
    (ac : CreateSchemaArgs → Except String Schema) (self : BotState)
    (cfg : AgentConfig) (s : Schema)
    (hcfg : lookupAgent self.agent_id = some cfg)
    (hfind : l.find? (fun sc => sc.name == cfg.schema_name) = some s) :
    ensure_schema (.ok l) ac self =
      ({ self with schema_id := some s.id }, [.schemasList]) := by
  simp [ensure_schema, hcfg, hfind]

theorem ensure_schema_created (l : List Schema)
    (ac : CreateSchemaArgs → Except String Schema) (self : BotState)
    (cfg : AgentConfig) (s : Schema)
    (hcfg : lookupAgent self.agent_id = some cfg)
    (hfind : l.find? (fun sc => sc.name == cfg.schema_name) = none)
    (hcreate : ac (mkCreateArgs cfg self.sharing_mode) = .ok s) :
    ensure_schema (.ok l) ac self =
      ({ self with schema_id := some s.id },
        [.schemasList, .schemasCreate (mkCreateArgs cfg self.sharing_mode)]) := by
  simp [ensure_schema, hcfg, hfind, hcreate]

theorem ensure_schema_create_error (l : List Schema)
    (ac : CreateSchemaArgs → Except String Schema) (self : BotState)
    (cfg : AgentConfig) (e : String)
    (hcfg : lookupAgent self.agent_id = some cfg)
    (hfind : l.find? (fun sc => sc.name == cfg.schema_name) = none)
    (hcreate : ac (mkCreateArgs cfg self.sharing_mode) = .error e) :
    ensure_schema (.ok l) ac self =
      (self, [.schemasList, .schemasCreate (mkCreateArgs cfg self.sharing_mode)]) := by
  simp [ensure_schema, hcfg, hfind, hcreate]

theorem ensure_schema_frame (al : Except String (List Schema))
    (ac : CreateSchemaArgs → Except String Schema) (self : BotState) :
    (ensure_schema al ac self).1.session_id = self.session_id ∧
    (ensure_schema al ac self).1.agent_id = self.agent_id ∧
    (ensure_schema al ac self).1.sharing_mode = self.sharing_mode := by
  unfold ensure_schema
  split
  · simp
  · split
    · simp
    · split
      · simp
      · dsimp only
        split <;> simp

theorem switch_agent_known (al : Except String (List Schema))
    (ac : CreateSchemaArgs → Except String Schema) (self : BotState)
    (id : String) (cfg : AgentConfig) (h : lookupAgent id = some cfg) :
    switch_agent al ac self id =
      ((ensure_schema al ac { self with agent_id := id }).2,
        .ok (ensure_schema al ac { self with agent_id := id }).1) := by
  simp [switch_agent, h]

theorem archiveSeq_all_ok (arch : String → Except String Unit)
    (states : List String) (h : ∀ y ∈ states, arch y = .ok ()) :
    archiveSeq arch states = (states, none) := by
  induction states with
  | nil => simp [archiveSeq]
  | cons x xs ih =>
    have hx := h x (by simp)
    simp [archiveSeq, hx, ih (fun y hy => h y (by simp [hy]))]

theorem archiveSeq_stops (arch : String → Except String Unit)
    (pre : List String) (x : String) (suf : List String) (e : String)
    (hpre : ∀ y ∈ pre, arch y = .ok ()) (hx : arch x = .error e) :
    archiveSeq arch (pre ++ x :: suf) = (pre, some e) := by
  induction pre with
  | nil => simp [archiveSeq, hx]
  | cons y ys ih =>
    have hy := hpre y (by simp)
    simp [archiveSeq, hy, ih (fun z hz => hpre z (by simp [hz]))]

/-! ## Claim theorems -/

/-- C5: each panel fetch writes only its own cache slot (the other three
slots are unchanged for every outcome); after a successful fetch of panel P
during `update_state_panels`, the returned panel text is exactly the fresh
value, P's cache slot holds exactly that value afterwards — regardless of
the other three panels' outcomes — and a subsequent failed fetch of P
(the next read with no successful fetch of P in between) returns exactly
that value. -/
theorem C5_fetch_writes_own_slot (f1 : Except String String) (f2 : HistOutcome)
    (f3 : StatesOutcome) (f4 : Except String String) (cache : Cache) (s e : String) :
    ((get_current_state_display f1 cache).2.state_history = cache.state_history ∧
      (get_current_state_display f1 cache).2.all_states = cache.all_states ∧
      (get_current_state_display f1 cache).2.schema_info = cache.schema_info) ∧
    ((get_state_history_display f2 cache).2.current_state = cache.current_state ∧
      (get_state_history_display f2 cache).2.all_states = cache.all_states ∧
      (get_state_history_display f2 cache).2.schema_info = cache.schema_info) ∧
    ((get_all_session_states_display f3 cache).2.current_state = cache.current_state ∧
      (get_all_session_states_display f3 cache).2.state_history = cache.state_history ∧
      (get_all_session_states_display f3 cache).2.schema_info = cache.schema_info) ∧
    ((get_schema_info_display f4 cache).2.current_state = cache.current_state ∧
      (get_schema_info_display f4 cache).2.state_history = cache.state_history ∧
      (get_schema_info_display f4 cache).2.all_states = cache.all_states) ∧
    (f1 = .ok s →
      (update_state_panels f1 f2 f3 f4 (some cache)).current_state = s ∧
      (update_state_panels f1 f2 f3 f4 (some cache)).cache.current_state = some s ∧
      (s ≠ "" → (get_current_state_display (.error e)
        (update_state_panels f1 f2 f3 f4 (some cache)).cache).1 = s)) ∧
    (f2 = .rendered s →
      (update_state_panels f1 f2 f3 f4 (some cache)).state_history = s ∧
      (update_state_panels f1 f2 f3 f4 (some cache)).cache.state_history = some s ∧
      (s ≠ "" → (get_state_history_display (.raiseExc e)
        (update_state_panels f1 f2 f3 f4 (some cache)).cache).1 = s)) ∧
    (f3 = .rendered s →
      (update_state_panels f1 f2 f3 f4 (some cache)).all_states = s ∧
      (update_state_panels f1 f2 f3 f4 (some cache)).cache.all_states = some s ∧
      (s ≠ "" → (get_all_session_states_display (.raiseExc e)
        (update_state_panels f1 f2 f3 f4 (some cache)).cache).1 = s)) ∧
    (f4 = .ok s →
      (update_state_panels f1 f2 f3 f4 (some cache)).schema_info = s ∧
      (update_state_panels f1 f2 f3 f4 (some cache)).cache.schema_info = some s ∧
      (s ≠ "" → (get_schema_info_display (.error e)
        (update_state_panels f1 f2 f3 f4 (some cache)).cache).1 = s)) := by
  refine ⟨current_display_frame f1 cache, hist_display_frame f2 cache,
    states_display_frame f3 cache, schema_display_frame f4 cache, ?_, ?_, ?_, ?_⟩
  · intro hf; subst hf
    have h := update_current_slot s f2 f3 f4 cache
    exact ⟨h.1, h.2, fun hne => current_display_error_val e s _ h.2 hne⟩
  · intro hf; subst hf
    have h := update_history_slot f1 s f3 f4 cache
    exact ⟨h.1, h.2, fun hne => hist_display_raise_val e s _ h.2 hne⟩
  · intro hf; subst hf
    have h := update_states_slot f1 f2 s f4 cache
    exact ⟨h.1, h.2, fun hne => states_display_raise_val e s _ h.2 hne⟩
  · intro hf; subst hf
    have h := update_schema_slot f1 f2 f3 s cache
    exact ⟨h.1, h.2, fun hne => schema_display_error_val e s _ h.2 hne⟩

/-- C5 witness: a successful current-state fetch next to three failing
panels, evaluated concretely. -/
theorem C5_witness :
    (update_state_panels (.ok "fresh json") (.raiseExc "down") (.errVal "down")
      (.error "down") (some get_empty_state_cache)).current_state = "fresh json" ∧
    (update_state_panels (.ok "fresh json") (.raiseExc "down") (.errVal "down")
      (.error "down") (some get_empty_state_cache)).cache.current_state = some "fresh json" ∧
    ("fresh json" ≠ "" → (get_current_state_display (.error "still down")
      (update_state_panels (.ok "fresh json") (.raiseExc "down") (.errVal "down")
        (.error "down") (some get_empty_state_cache)).cache).1 = "fresh json") :=
  (C5_fetch_writes_own_slot (.ok "fresh json") (.raiseExc "down") (.errVal "down")
    (.error "down") get_empty_state_cache "fresh json" "still down").2.2.2.2.1 rfl

/-- C8: `Config.validate` returns an empty error list iff both required API
keys are non-empty; one missing key produces exactly the named error for that
key (omitting the other); both missing produce both named errors. -/
theorem C8_config_validate_correct (k o : String) :
    (Config.validate k o = [] ↔ (k ≠ "" ∧ o ≠ "")) ∧
    (k = "" ∧ o ≠ "" → Config.validate k o = ["KEYOKU_API_KEY is required"]) ∧
    (k ≠ "" ∧ o = "" → Config.validate k o = ["OPENAI_API_KEY is required"]) ∧
    (k = "" ∧ o = "" →
      "KEYOKU_API_KEY is required" ∈ Config.validate k o ∧
      "OPENAI_API_KEY is required" ∈ Config.validate k o) := by
  by_cases hk : k = "" <;> by_cases ho : o = "" <;>
    simp [Config.validate, hk, ho]

/-- C8 witness: evaluated with only the memory-service key missing. -/
theorem C8_witness :
    Config.validate "" "sk-test" = ["KEYOKU_API_KEY is required"] :=
  (C8_config_validate_correct "" "sk-test").2.1 ⟨rfl, by decide⟩

/-- C3: for a role-tagged history of even length (user/assistant alternating),
both reconciliations return exactly the content pairs in order (the identity
on content pairs, hence an order-preserving bijection from consecutive record
pairs to tuples); a trailing unpaired user record is dropped by both, never
emitted as a pair with empty assistant text. -/
theorem C3_pairwise_reconciliation (ps : List (String × String)) (u : String) :
    chatRecon (interleave ps) = ps ∧
    statefulRecon (interleave ps) = .ok ps ∧
    chatRecon (interleave ps ++ [Rec.msg "user" u]) = ps ∧
    statefulRecon (interleave ps ++ [Rec.msg "user" u]) = .ok ps :=
  ⟨chatRecon_interleave ps, statefulRecon_interleave ps,
   chatRecon_interleave_trailing ps u, statefulRecon_interleave_trailing ps u⟩

/-- C2 counterexample: the memory-tab reconciliation applied to a history
that is already a list of `(user, assistant)` tuples does not return that
list — it consumes two tuples per emitted pair, mixing adjacent turns. -/
theorem C2_counterexample :
    chatRecon [Rec.pair "u0" "a0", Rec.pair "u1" "a1"] ≠
      [("u0", "a0"), ("u1", "a1")] := by
  decide

/-- C2 (amended): the stateful-tab reconciliation is idempotent over
already-well-formed input (a list of tuples maps to exactly that list); the
memory-tab reconciliation is not; both implementations never reorder turns —
each emits its output pairs at strictly increasing input positions. -/
theorem C2_reconciliation_amended :
    (∀ l : List (String × String),
      statefulRecon (l.map fun p => Rec.pair p.1 p.2) = .ok l) ∧
    (∀ h : List Rec,
      (chatReconIdx 0 h).map Prod.snd = chatRecon h ∧
      List.Chain' (· < ·) ((chatReconIdx 0 h).map Prod.fst)) ∧
    (∀ (h : List Rec) (out : List (Nat × (String × String))),
      statefulReconIdx 0 h = .ok out →
      statefulRecon h = .ok (out.map Prod.snd) ∧
      List.Chain' (· < ·) (out.map Prod.fst)) := by
  refine ⟨statefulRecon_pairs, ?_, ?_⟩
  · intro h
    exact ⟨chatReconIdx_map_snd h 0, chatReconIdx_chain h 0⟩
  · intro h out hout
    have hspec := statefulReconIdx_spec h 0
    have h1 := hspec.1
    rw [hout] at h1
    exact ⟨h1.symm, (hspec.2 out hout).1⟩

/-- C2 witness: the amended theorem applied at a concrete one-pair history. -/
theorem C2_witness :
    statefulRecon [Rec.pair "hi" "hello"] = .ok [("hi", "hello")] ∧
    List.Chain' (· < ·) ([(0, ("hi", "hello"))].map Prod.fst) :=
  C2_reconciliation_amended.2.2 [Rec.pair "hi" "hello"] [(0, ("hi", "hello"))] rfl

/-- C4 counterexample: with an empty cache slot, two consecutive failures of
the current-state panel with different error messages return different
literal error strings, so the second failure does not return exactly the
same value as the first. -/
theorem C4_counterexample :
    (get_current_state_display (Except.error "timeout")
        (get_current_state_display (Except.error "connection refused")
          get_empty_state_cache).2).1 ≠
      (get_current_state_display (Except.error "connection refused")
        get_empty_state_cache).1 := by
  decide

/-- C4 (amended): a failed fetch of any of the four panels never modifies the
cache; and whenever the panel's cache slot holds a (truthy) cached value,
two consecutive failures of that panel with no intervening success both
return exactly that cached value. With an empty slot, each failure returns a
literal error string embedding its own message (so the two returns agree
only when the messages agree, as the counterexample shows). -/
theorem C4_consecutive_failures_amended (e1 e2 : String) (cache : Cache) :
    ((get_current_state_display (.error e1) cache).2 = cache ∧
      (get_state_history_display (.raiseExc e1) cache).2 = cache ∧
      (get_state_history_display (.errVal e1) cache).2 = cache ∧
      (get_all_session_states_display (.raiseExc e1) cache).2 = cache ∧
      (get_all_session_states_display (.errVal e1) cache).2 = cache ∧
      (get_schema_info_display (.error e1) cache).2 = cache) ∧
    (∀ c, cache.current_state = some c → c ≠ "" →
      (get_current_state_display (.error e1) cache).1 = c ∧
      (get_current_state_display (.error e2)
        (get_current_state_display (.error e1) cache).2).1 = c) ∧
    (∀ c, cache.state_history = some c → c ≠ "" →
      (get_state_history_display (.raiseExc e1) cache).1 = c ∧
      (get_state_history_display (.errVal e2)
        (get_state_history_display (.raiseExc e1) cache).2).1 = c) ∧
    (∀ c, cache.all_states = some c → c ≠ "" →
      (get_all_session_states_display (.errVal e1) cache).1 = c ∧
      (get_all_session_states_display (.raiseExc e2)
        (get_all_session_states_display (.errVal e1) cache).2).1 = c) ∧
    (∀ c, cache.schema_info = some c → c ≠ "" →
      (get_schema_info_display (.error e1) cache).1 = c ∧
      (get_schema_info_display (.error e2)
        (get_schema_info_display (.error e1) cache).2).1 = c) := by
  refine ⟨⟨current_display_error_cache e1 cache, hist_display_raise_cache e1 cache,
    hist_display_errval_cache e1 cache, states_display_raise_cache e1 cache,
    states_display_errval_cache e1 cache, schema_display_error_cache e1 cache⟩,
    ?_, ?_, ?_, ?_⟩
  · intro c hc hne
    refine ⟨current_display_error_val e1 c cache hc hne, ?_⟩
    rw [current_display_error_cache e1 cache]
    exact current_display_error_val e2 c cache hc hne
  · intro c hc hne
    refine ⟨hist_display_raise_val e1 c cache hc hne, ?_⟩
    rw [hist_display_raise_cache e1 cache]
    exact hist_display_errval_val e2 c cache hc hne
  · intro c hc hne
    refine ⟨states_display_errval_val e1 c cache hc hne, ?_⟩
    rw [states_display_errval_cache e1 cache]
    exact states_display_raise_val e2 c cache hc hne
  · intro c hc hne
    refine ⟨schema_display_error_val e1 c cache hc hne, ?_⟩
    rw [schema_display_error_cache e1 cache]
    exact schema_display_error_val e2 c cache hc hne

/-- C4 witness: the amended theorem evaluated on a cache whose history slot
holds a cached table, failing twice. -/
theorem C4_witness :
    (get_state_history_display (.raiseExc "down")
      ⟨none, some "v1 table", none, none⟩).1 = "v1 table" ∧
    (get_state_history_display (.errVal "still down")
      (get_state_history_display (.raiseExc "down")
        ⟨none, some "v1 table", none, none⟩).2).1 = "v1 table" :=
  (C4_consecutive_failures_amended "down" "still down"
    ⟨none, some "v1 table", none, none⟩).2.2.1 "v1 table" rfl (by decide)

/-- C1 counterexample: with two states in the session and the first archive
raising a `KeyokuError`, the remaining state — whose archive call would have
succeeded — is never archived and the session identifier is not replaced:
the single `try/except` around the loop aborts on the first failure. -/
theorem C1_counterexample :
    ((fun i => if i = "s1" then Except.error "boom" else Except.ok ()) "s2"
        = Except.ok ()) ∧
    (reset_session (.ok ["s1", "s2"])
        (fun i => if i = "s1" then Except.error "boom" else Except.ok ())
        "stateful-old" "stateful-new").archived = [] ∧
    (reset_session (.ok ["s1", "s2"])
        (fun i => if i = "s1" then Except.error "boom" else Except.ok ())
        "stateful-old" "stateful-new").session_id = "stateful-old" :=
  ⟨rfl, rfl, rfl⟩

/-- C1 (amended): `reset_session` archives the session states sequentially
but stops at the first `KeyokuError`: when listing and every archive succeed
it archives all states and generates the fresh session identifier; when an
archive fails, only the states before the failing one are archived, the
session identifier is left unchanged and an error message is returned; a
failing listing archives nothing and keeps the session identifier. -/
theorem C1_reset_session_amended (arch : String → Except String Unit)
    (states : List String) (sid fid : String) :
    ((∀ y ∈ states, arch y = .ok ()) →
      reset_session (.ok states) arch sid fid =
        ⟨fid, states, "New session started: " ++ fid⟩) ∧
    (∀ pre x suf e, states = pre ++ x :: suf →
      (∀ y ∈ pre, arch y = .ok ()) → arch x = .error e →
      reset_session (.ok states) arch sid fid =
        ⟨sid, pre, "Error resetting session: " ++ e⟩) ∧
    (∀ e, reset_session (.error e) arch sid fid =
      ⟨sid, [], "Error resetting session: " ++ e⟩) := by
  refine ⟨?_, ?_, ?_⟩
  · intro h
    simp [reset_session, archiveSeq_all_ok arch states h]
  · intro pre x suf e hstates hpre hx
    subst hstates
    simp [reset_session, archiveSeq_stops arch pre x suf e hpre hx]
  · intro e
    simp [reset_session]

/-- C1 witness: the amended theorem evaluated with the second archive
failing: only the first state is archived, the session id is kept. -/
theorem C1_witness :
    reset_session (.ok ["s1", "s2"])
        (fun i => if i = "s2" then Except.error "boom" else Except.ok ())
        "stateful-old" "stateful-new" =
      ⟨"stateful-old", ["s1"], "Error resetting session: " ++ "boom"⟩ :=
  (C1_reset_session_amended
      (fun i => if i = "s2" then Except.error "boom" else Except.ok ())
      ["s1", "s2"] "stateful-old" "stateful-new").2.1 ["s1"] "s2" [] "boom" rfl
    (by intro y hy; simp at hy; subst hy; rfl) rfl

/-- C6: `switch_agent` with an agent id outside `DEMO_AGENTS` raises a local
`ValueError` (the `.error` result) with no remote SDK call performed (empty
call list) and no successor state (the agent selection is not mutated); the
failure is raised, not converted to an error value. -/
theorem C6_switch_agent_unknown_raises (al : Except String (List Schema))
    (ac : CreateSchemaArgs → Except String Schema) (self : BotState)
    (id : String) (h : lookupAgent id = none) :
    switch_agent al ac self id = ([], .error ("Unknown agent: " ++ id)) := by
  simp [switch_agent, h]

/-- C6 witness: a concrete unknown agent id. -/
theorem C6_witness :
    switch_agent (.ok []) (fun _ => .error "unused")
        ⟨"sess-0", "sales-agent", "shared", none⟩ "translator-agent" =
      ([], .error ("Unknown agent: " ++ "translator-agent")) :=
  C6_switch_agent_unknown_raises (.ok []) (fun _ => .error "unused")
    ⟨"sess-0", "sales-agent", "shared", none⟩ "translator-agent" rfl

/-- C7 counterexample: construct with `"sales-agent"` against a remote that
has the sales schema (`"OrderProcessing"`, id `"sch-sales"`), then switch to
`"support-agent"` while the schema listing raises a `KeyokuError`: the
switch succeeds but `schema_id` still points at `"sch-sales"` — the sales
schema — because `_ensure_schema` catches the error and leaves the
previously cached id in place. -/
theorem C7_counterexample :
    (switch_agent (.error "service down") (fun _ => .error "service down")
        (init_stateful (.ok [⟨"sch-sales", "OrderProcessing"⟩])
          (fun _ => .error "unused") "sess-1" "sales-agent" "shared").1
        "support-agent").2 =
      .ok ⟨"sess-1", "support-agent", "shared", some "sch-sales"⟩ := rfl

/-- C7 (amended): after construction with `"sales-agent"`,
`switch_agent("support-agent")` leaves `schema_id` pointing at the
`"SupportTicket"` schema — the first listed remote schema with that name, or
the newly created one when no match is found — provided the listing (and
creation, when needed) during the switch succeeds; when the ensure step
fails with a service error the previously cached (sales) schema id is
retained, as the counterexample shows. -/
theorem C7_switch_to_support_amended (api1l : Except String (List Schema))
    (api1c : CreateSchemaArgs → Except String Schema) (sid sharing : String)
    (l2 : List Schema) (c2 : CreateSchemaArgs → Except String Schema) :
    (∀ s, l2.find? (fun sc => sc.name == "SupportTicket") = some s →
      ((switch_agent (.ok l2) c2
          (init_stateful api1l api1c sid "sales-agent" sharing).1
          "support-agent").2.map BotState.schema_id) = .ok (some s.id)) ∧
    (l2.find? (fun sc => sc.name == "SupportTicket") = none →
      ∀ s, c2 (mkCreateArgs supportAgentConfig sharing) = .ok s →
      ((switch_agent (.ok l2) c2
          (init_stateful api1l api1c sid "sales-agent" sharing).1
          "support-agent").2.map BotState.schema_id) = .ok (some s.id)) := by
  have hsup : lookupAgent "support-agent" = some supportAgentConfig := rfl
  have hframe := ensure_schema_frame api1l api1c
    ⟨sid, "sales-agent", sharing, none⟩
  have hmode : (init_stateful api1l api1c sid "sales-agent" sharing).1.sharing_mode
      = sharing := hframe.2.2
  constructor
  · intro s hfind
    rw [switch_agent_known (.ok l2) c2 _ "support-agent" supportAgentConfig hsup]
    rw [ensure_schema_found l2 c2 _ supportAgentConfig s (by simpa using hsup)
      (by simpa [supportAgentConfig] using hfind)]
    simp [Except.map]
  · intro hfind s hcreate
    rw [switch_agent_known (.ok l2) c2 _ "support-agent" supportAgentConfig hsup]
    rw [ensure_schema_created l2 c2 _ supportAgentConfig s (by simpa using hsup)
      (by simpa [supportAgentConfig] using hfind)
      (by simpa [hmode] using hcreate)]
    simp [Except.map]

/-- C7 witness: the amended theorem with a remote that already has the
support schema. -/
theorem C7_witness :
    ((switch_agent (.ok [⟨"sch-support", "SupportTicket"⟩])
        (fun _ => .error "unused")
        (init_stateful (.error "down") (fun _ => .error "down")
          "sess-2" "sales-agent" "shared").1
        "support-agent").2.map BotState.schema_id) = .ok (some "sch-support") :=
  (C7_switch_to_support_amended (.error "down") (fun _ => .error "down")
      "sess-2" "shared" [⟨"sch-support", "SupportTicket"⟩]
      (fun _ => .error "unused")).1 ⟨"sch-support", "SupportTicket"⟩ rfl

/-- C9: once the LLM has produced a reply, `KeyokuChatbot.chat` returns that
reply unchanged whatever the memory-storage step does: a `KeyokuError` from
`remember` or from the wait, and a `TimeoutError` from the wait, are each
caught and recorded as a logged outcome rather than raised. -/
theorem C9_reply_survives_store_failure (memory_context : String)
    (llm : List Msg → Except String String)
    (remember : String → Except String String) (wait : String → WaitOutcome)
    (message : String) (history : List (String × String)) (t : String)
    (h : llm (build_messages SYSTEM_PROMPT memory_context history message) = .ok t) :
    (KeyokuChatbot.chat memory_context llm remember wait message history).1 = t ∧
    (∀ e, remember ("User: " ++ message ++ "\nAssistant: " ++ t) = .error e →
      (KeyokuChatbot.chat memory_context llm remember wait message history).2 =
        some (.storeFailed e)) ∧
    (∀ j, remember ("User: " ++ message ++ "\nAssistant: " ++ t) = .ok j →
      wait j = .timeout →
      (KeyokuChatbot.chat memory_context llm remember wait message history).2 =
        some .timedOut) := by
  refine ⟨?_, ?_, ?_⟩
  · simp [KeyokuChatbot.chat, h]
  · intro e he
    simp [KeyokuChatbot.chat, h, store_conversation, he]
  · intro j hj hw
    simp [KeyokuChatbot.chat, h, store_conversation, hj, hw]

/-- C9 witness: generation succeeds, the memory service raises on
`remember`; the reply is still delivered. -/
theorem C9_witness :
    (KeyokuChatbot.chat "No relevant memories." (fun _ => .ok "Hi there!")
        (fun _ => .error "503 service unavailable") (fun _ => .completed)
        "hello" []).1 = "Hi there!" ∧
    (KeyokuChatbot.chat "No relevant memories." (fun _ => .ok "Hi there!")
        (fun _ => .error "503 service unavailable") (fun _ => .completed)
        "hello" []).2 = some (.storeFailed "503 service unavailable") := by
  have h := C9_reply_survives_store_failure "No relevant memories."
    (fun _ => .ok "Hi there!") (fun _ => .error "503 service unavailable")
    (fun _ => .completed) "hello" [] "Hi there!" rfl
  exact ⟨h.1, h.2.1 "503 service unavailable" rfl⟩

/-- C10: constructing a `StatefulChatbot` with an agent id outside
`DEMO_AGENTS` does not raise — `_ensure_schema` only warns and returns, so
the constructed state has `schema_id = None` and no remote call was made —
every subsequent `chat` on that state returns the literal
`"Error: No state schema configured for this agent."` without invoking the
LLM, while `switch_agent` with the same unknown id raises: the
raise-on-unknown-agent policy applies only to `switch_agent`. -/
theorem C10_unknown_agent_construction (id : String)
    (h : lookupAgent id = none) (al : Except String (List Schema))
    (ac : CreateSchemaArgs → Except String Schema) (sid sharing : String)
    (llm : List Msg → Except String String) (ctx msg : String)
    (hist : List (String × String)) :
    (init_stateful al ac sid id sharing).1 = ⟨sid, id, sharing, none⟩ ∧
    (init_stateful al ac sid id sharing).2 = [] ∧
    StatefulChatbot.chat llm (init_stateful al ac sid id sharing).1 ctx msg hist =
      ("Error: No state schema configured for this agent.", false) ∧
    (switch_agent al ac (init_stateful al ac sid id sharing).1 id).2 =
      .error ("Unknown agent: " ++ id) := by
  have he : ensure_schema al ac ⟨sid, id, sharing, none⟩ =
      (⟨sid, id, sharing, none⟩, []) :=
    ensure_schema_unknown al ac ⟨sid, id, sharing, none⟩ h
  have hinit : init_stateful al ac sid id sharing =
      (⟨sid, id, sharing, none⟩, []) := by
    simpa [init_stateful] using he
  refine ⟨by simp [hinit], by simp [hinit], ?_, ?_⟩
  · rw [hinit]
    simp [StatefulChatbot.chat, truthyOpt]
  · rw [hinit]
    simp [switch_agent, h]

/-- C10 witness: a concrete unknown agent id, with concrete oracles. -/
theorem C10_witness :
    (init_stateful (.ok []) (fun _ => .error "unused") "sess-3" "ghost-agent"
        "shared").1 = ⟨"sess-3", "ghost-agent", "shared", none⟩ ∧
    (init_stateful (.ok []) (fun _ => .error "unused") "sess-3" "ghost-agent"
        "shared").2 = [] ∧
    StatefulChatbot.chat (fun _ => .ok "should not run")
        (init_stateful (.ok []) (fun _ => .error "unused") "sess-3"
          "ghost-agent" "shared").1 "ctx" "hi" [] =
      ("Error: No state schema configured for this agent.", false) ∧
    (switch_agent (.ok []) (fun _ => .error "unused")
        (init_stateful (.ok []) (fun _ => .error "unused") "sess-3"
          "ghost-agent" "shared").1 "ghost-agent").2 =
      .error ("Unknown agent: " ++ "ghost-agent") :=
  C10_unknown_agent_construction "ghost-agent" rfl (.ok [])
    (fun _ => .error "unused") "sess-3" "shared" (fun _ => .ok "should not run")
    "ctx" "hi" []

end KeyokuDemo
